import Mathlib

/-!
Verification of the query-routing and prompt-chaining policy of the
car-recommendation assistant (`app.py` console entry point and `ui.py`
Streamlit entry point).

The repository's code is sequential glue around two external
collaborators: an LLM client (crewai `LLM` / raw Gemini HTTP endpoint)
and the `crewai` orchestration framework.  Following the spec, the
collaborators are modelled at their interface boundary as oracle
functions gathered in an `Env` structure; the repository's own logic
(routing, prompt construction, fallback policy, rendering) is embedded
as executable Lean functions that also record the trace of external
calls they issue.
-/

namespace CarRec

/-- Python-style JSON value (`json` module values; numbers as `Int`
suffice for the properties verified here). -/
inductive Json where
  | null : Json
  | bool (b : Bool) : Json
  | num (n : Int) : Json
  | str (s : String) : Json
  | arr (xs : List Json) : Json
  | obj (fields : List (String × Json)) : Json

/-- Models `json.dumps` (default separators; string escaping is a
boundary detail not relied on by any theorem). -/
def Json.dumps : Json → String
  | .null => "null"
  | .bool true => "true"
  | .bool false => "false"
  | .num n => toString n
  | .str s => "\"" ++ s ++ "\""
  | .arr xs => "[" ++ String.intercalate ", " (xs.attach.map fun ⟨x, hx⟩ => Json.dumps x) ++ "]"
  | .obj kvs =>
      "\x7b" ++
        String.intercalate ", "
          (kvs.attach.map fun ⟨kv, hkv⟩ => "\"" ++ kv.1 ++ "\": " ++ Json.dumps kv.2) ++
      "\x7d"
decreasing_by
  · simp_wf
    have h := List.sizeOf_lt_of_mem hx
    omega
  · simp_wf
    have h := List.sizeOf_lt_of_mem hkv
    rcases kv with ⟨k, v⟩
    simp at h ⊢
    omega

/-- Python whitespace characters recognised by `str.split()` /
`str.strip()` (ASCII subset; the inputs in this system are query
strings). -/
def isWs (c : Char) : Bool :=
  c == ' ' || c == '\t' || c == '\n' || c == '\r' || c == '\x0b' || c == '\x0c'

/-- Accumulator-style worker for Python `str.split()`:
splits at runs of whitespace, never emitting empty tokens.
`acc` holds the current (reversed) token. -/
def splitWsAux : List Char → List Char → List (List Char)
  | [], acc => if acc = [] then [] else [acc.reverse]
  | c :: cs, acc =>
    if isWs c then
      if acc = [] then splitWsAux cs [] else acc.reverse :: splitWsAux cs []
    else
      splitWsAux cs (c :: acc)

/-- Python `s.split()` (no separator argument) at the `List Char` level. -/
def pyTokensL (l : List Char) : List (List Char) := splitWsAux l []

/-- Python `s.strip()` at the `List Char` level. -/
def stripChars (l : List Char) : List Char :=
  (((l.dropWhile isWs).reverse.dropWhile isWs)).reverse

/-- Python `s.strip()`. -/
def pyStrip (s : String) : String := String.mk (stripChars s.data)

/-- `len(s.split())`: the number of whitespace-separated tokens of `s`. -/
def tokenCount (s : String) : Nat := (pyTokensL s.data).length

/-- Python `s.lower()` (ASCII; query commands are ASCII). -/
def pyLower (s : String) : String := String.mk (s.data.map Char.toLower)

/-! ## Process-wide configuration (`app.py` lines 27-36) -/

/-- `GEMINI_MODEL = "gemini-2.0-flash"` -/
def GEMINI_MODEL : String := "gemini-2.0-flash"

/-- Construction parameters of the crewai `LLM(...)` client.
`temperatureTenths` records `temperature=0.2` as 2 tenths (the float
value plays no computational role in the repository). -/
structure LLMConfig where
  provider : String
  model : String
  temperatureTenths : Nat
  max_tokens : Nat

/-- `llm = LLM(provider="google", model=GEMINI_MODEL, api_key=..., temperature=0.2, max_tokens=1024)` -/
def llm : LLMConfig :=
  { provider := "google", model := GEMINI_MODEL, temperatureTenths := 2, max_tokens := 1024 }

/-- JSON body of the raw Gemini fallback request:
`{contents: [{parts: [{text: prompt}]}], generationConfig: {maxOutputTokens: 512}}`,
kept as its two varying ingredients. -/
structure GenPayload where
  text : String
  maxOutputTokens : Nat
deriving DecidableEq, Repr

/-- The payload built by `direct_car_lookup_text`'s fallback
(`app.py` lines 131-138): the prompt text and `maxOutputTokens: 512`. -/
def mkPayload (prompt : String) : GenPayload := ⟨prompt, 512⟩

/-- External calls issued by the glue code, recorded as a trace. -/
inductive Ev where
  | llmCall (prompt : String) (maxTokens : Nat) : Ev
  | httpPost (payload : GenPayload) : Ev
  | kickoffCall (query : String) : Ev
deriving DecidableEq, Repr

/-- Oracle behaviour of the external collaborators for one request.
`llmCall` models `llm.call(prompt)` (the crewai `LLM` instance always
provides `.call`, so the `hasattr(llm, "call")` guard in
`direct_car_lookup_text` is true and resolved in the embedding);
`.error` models a raised exception carrying its message.
`httpGen` models `requests.post(url, json=payload, timeout=30)` followed
by `raise_for_status()` and `resp.json()`: `.ok data` is a parsed JSON
body of a 2xx response, `.error` any exception along that path.
`kickoff` models `crew.kickoff(inputs={"query": q})` rendered as text. -/
structure Env where
  llmCall : String → Except String Json
  httpGen : String → Except String Json
  kickoff : String → Except String String

/-! ## Direct lookup (`app.py` lines 109-151) -/

/-- The fixed direct-lookup prompt embedding the car name. -/
def directPrompt (car_name : String) : String :=
  "You are an expert on Indian cars. Provide structured JSON for '" ++ car_name ++ "'.\n" ++
  "Include: model, manufacturer, price_range_in_inr, mileage, engine_disp_or_power, " ++
  "fuel_type, transmission, seating, ground_clearance_mms, boot_space_liters, safety_rating_if_known, " ++
  "popular_trims, key_features, pros, cons.\nReturn ONLY JSON."

/-- Python subscript `j[k]` on a dict: `none` models the
`KeyError`/`TypeError` that the bare `except:` catches. -/
def Json.getField (j : Json) (k : String) : Option Json :=
  match j with
  | .obj kvs => (kvs.find? fun kv => kv.1 == k).map fun kv => kv.2
  | _ => none

/-- Python subscript `j[i]` on a list: `none` models
`IndexError`/`TypeError`. -/
def Json.getIdx (j : Json) (i : Nat) : Option Json :=
  match j with
  | .arr xs => xs.get? i
  | _ => none

/-- `data["candidates"][0]["content"]["parts"][0]["text"]`
(`app.py` line 146); `none` when any step of the path fails. -/
def candidateText (data : Json) : Option Json :=
  (((((data.getField "candidates").bind fun x => x.getIdx 0).bind
      fun x => x.getField "content").bind
      fun x => x.getField "parts").bind
      fun x => x.getIdx 0).bind
      fun x => x.getField "text"

/-- `direct_car_lookup_text(car_name)` with its trace of external calls.
The function is total (returns a plain value, no exception monad):
every code path of the source ends in a `return` under a `try/except`,
so no exception escapes to the caller. -/
def direct_car_lookup_text (env : Env) (car_name : String) : Json × List Ev :=
  let prompt := directPrompt car_name
  match env.llmCall prompt with
  | .ok result =>
      ((match result with
        | .str _ => result
        | v => Json.str v.dumps), [Ev.llmCall prompt llm.max_tokens])
  | .error _ =>
      let evs := [Ev.llmCall prompt llm.max_tokens, Ev.httpPost (mkPayload prompt)]
      match env.httpGen prompt with
      | .ok data =>
          ((match candidateText data with
            | some v => v
            | none => Json.str data.dumps), evs)
      | .error e => (Json.str ("Error calling Gemini: " ++ e), evs)

/-! ## Presentation layers (`app.py` lines 156-190, `ui.py` lines 25-66) -/

/-- What a lookup result is displayed as: parsed-JSON structured
output, or the raw value unchanged. -/
inductive Rendered where
  | structured (j : Json) : Rendered
  | raw (v : Json) : Rendered

/-- Console display of the direct-lookup result (`app.py` lines 170-173):
`json.dumps(json.loads(raw), indent=2, ...)` on parse success, bare
`print(raw)` otherwise.  `loads` is the stdlib `json.loads` boundary:
`none` models a raised parse error (including the `TypeError` on a
non-string argument). -/
def consoleRenderLookup (loads : String → Option Json) (v : Json) : Rendered :=
  match v with
  | .str s =>
      match loads s with
      | some j => .structured j
      | none => .raw (.str s)
  | v => .raw v

/-- Web display of the direct-lookup result (`ui.py` lines 38-41):
`st.json(json.loads(result))` on parse success, `st.code(result)`
otherwise. -/
def webRenderLookup (loads : String → Option Json) (v : Json) : Rendered :=
  match v with
  | .str s =>
      match loads s with
      | some j => .structured j
      | none => .raw (.str s)
  | v => .raw v

/-- The fallback extraction prompt built on chain failure
(`app.py` line 186 and `ui.py` line 62, identical template). -/
def mkFallbackPrompt (q : String) : String :=
  "Extract JSON requirements from this user query:\n" ++ q ++ "\nReturn JSON only."

/-- `user_query.lower() in ("exit", "quit")` -/
def isExitCmd (q : String) : Bool := pyLower q == "exit" || pyLower q == "quit"

/-- Outcome of one iteration of the console loop. -/
inductive StepResult where
  | skipEmpty : StepResult
  | exitLoop : StepResult
  | direct (display : Rendered) : StepResult
  | chainOk (result : String) : StepResult
  | chainFallbackOk (req : Json) : StepResult
  | chainFallbackErr (msg : String) : StepResult

/-- One iteration of the `__main__` loop of `app.py` (lines 158-190):
strip the input line, skip blanks, honour exit commands, route short
queries to direct lookup and long ones to the crew, falling back to a
single extraction call on chain failure. -/
def consoleStep (env : Env) (loads : String → Option Json) (line : String) :
    StepResult × List Ev :=
  let q := pyStrip line
  if q = "" then (.skipEmpty, [])
  else if isExitCmd q then (.exitLoop, [])
  else if tokenCount q ≤ 3 then
    let r := direct_car_lookup_text env q
    (.direct (consoleRenderLookup loads r.1), r.2)
  else
    match env.kickoff q with
    | .ok result => (.chainOk result, [Ev.kickoffCall q])
    | .error _ =>
      let evs := [Ev.kickoffCall q, Ev.llmCall (mkFallbackPrompt q) llm.max_tokens]
      match env.llmCall (mkFallbackPrompt q) with
      | .ok req => (.chainFallbackOk req, evs)
      | .error e2 => (.chainFallbackErr e2, evs)

/-- Outcome of the `run_button` handler of `ui.py`. -/
inductive WebOutcome where
  | rejectedEmpty : WebOutcome
  | direct (display : Rendered) : WebOutcome
  | chainJson (j : Json) : WebOutcome
  | chainText (result : String) : WebOutcome
  | chainFallbackOk (req : Json) : WebOutcome
  | chainFallbackErr (msg : String) : WebOutcome

/-- The `run_button` handler of `ui.py` (lines 25-66): reject
blank input, route on the raw (unstripped) text, display the crew
result as JSON or text, falling back to a single extraction call on
chain failure. -/
def webStep (env : Env) (loads : String → Option Json) (text : String) :
    WebOutcome × List Ev :=
  if pyStrip text = "" then (.rejectedEmpty, [])
  else if tokenCount text ≤ 3 then
    let r := direct_car_lookup_text env text
    (.direct (webRenderLookup loads r.1), r.2)
  else
    match env.kickoff text with
    | .ok result =>
        ((match loads result with
          | some j => .chainJson j
          | none => .chainText result), [Ev.kickoffCall text])
    | .error _ =>
      let evs := [Ev.kickoffCall text, Ev.llmCall (mkFallbackPrompt text) llm.max_tokens]
      match env.llmCall (mkFallbackPrompt text) with
      | .ok req => (.chainFallbackOk req, evs)
      | .error e2 => (.chainFallbackErr e2, evs)

/-! ## Router (spec §4.1, inlined in both entry points) -/

inductive RouteDecision where
  | directLookup : RouteDecision
  | chain : RouteDecision
deriving DecidableEq, Repr

/-- `route(query)`: the classification both entry points inline as
`len(user_query.split()) <= 3`. -/
def route (q : String) : RouteDecision :=
  if tokenCount q ≤ 3 then .directLookup else .chain

/-! ## Startup configuration (`app.py` lines 13-24) -/

/-- The two credential sources.  `streamlitSecret = none` models any
exception in the `try` block (`streamlit` import failure or missing
secret); `dotenvKey` is `os.getenv("GEMINI_API_KEY")` after
`load_dotenv()`. -/
structure ConfigEnv where
  streamlitSecret : Option String
  dotenvKey : Option String

/-- The value bound to `GEMINI_API_KEY` after the try/except
(`app.py` lines 14-21): the Streamlit secret when the `try` block
succeeds, otherwise the `.env` lookup. -/
def geminiApiKeyValue (c : ConfigEnv) : Option String :=
  match c.streamlitSecret with
  | some k => some k
  | none => c.dotenvKey

/-- Startup outcome (`app.py` lines 23-24): `raise RuntimeError(...)`
when `GEMINI_API_KEY` is falsy (`None` or the empty string), otherwise
initialization proceeds with the key. -/
def startupApiKey (c : ConfigEnv) : Except String String :=
  match geminiApiKeyValue c with
  | some k =>
      if k = "" then .error "GEMINI_API_KEY missing! Add it in Streamlit Secrets or .env"
      else .ok k
  | none => .error "GEMINI_API_KEY missing! Add it in Streamlit Secrets or .env"

/-! ## Outcome discriminators and concrete oracle instantiations -/

/-- Did the console iteration take the direct-lookup path? -/
def StepResult.isDirect : StepResult → Bool
  | .direct _ => true
  | _ => false

/-- Did the web handler take the direct-lookup path? -/
def WebOutcome.isDirect : WebOutcome → Bool
  | .direct _ => true
  | _ => false

/-- Oracle where every external collaborator fails (total outage). -/
def envAllFail : Env :=
  ⟨fun _ => .error "primary down", fun _ => .error "network down", fun _ => .error "crew down"⟩

/-- Oracle where the primary LLM call succeeds with a fixed string. -/
def envPrimaryOk : Env :=
  ⟨fun _ => .ok (.str "lookup-result"), fun _ => .error "unused", fun _ => .ok "crew-result"⟩

/-- A well-shaped Gemini generateContent response body. -/
def goodGeminiData : Json :=
  .obj [("candidates", .arr [.obj [("content",
    .obj [("parts", .arr [.obj [("text", .str "car json")]])])]])]

/-- A response body missing the expected candidate path. -/
def badGeminiData : Json := .obj [("error", .str "quota exceeded")]

/-- Oracle: primary fails, raw HTTP fallback returns a well-shaped body. -/
def envHttpGood : Env :=
  ⟨fun _ => .error "down", fun _ => .ok goodGeminiData, fun _ => .error "unused"⟩

/-- Oracle: primary fails, raw HTTP fallback returns a deviant body. -/
def envHttpBad : Env :=
  ⟨fun _ => .error "down", fun _ => .ok badGeminiData, fun _ => .error "unused"⟩

/-- `json.loads` boundary that fails on every string. -/
def loadsNone : String → Option Json := fun _ => none

/-- `json.loads` boundary that parses every string to `{}`. -/
def loadsEmptyObj : String → Option Json := fun _ => some (.obj [])

/-! ## String-model lemmas -/

-- Splitting a run of pure whitespace flushes at most the pending token.
theorem splitWsAux_all_ws (t : List Char) (hws : ∀ c ∈ t, isWs c = true) (acc : List Char) :
    splitWsAux t acc = if acc = [] then [] else [acc.reverse] := by
  induction t generalizing acc with
  | nil => rfl
  | cons c cs ih =>
    have hc : isWs c = true := hws c (List.mem_cons_self c cs)
    have hcs : ∀ x ∈ cs, isWs x = true := fun x hx => hws x (List.mem_cons_of_mem c hx)
    by_cases hacc : acc = []
    · simp [splitWsAux, hc, hacc, ih hcs]
    · simp [splitWsAux, hc, hacc, ih hcs]

-- Leading whitespace does not change the token list.
theorem splitWsAux_dropWhile (l : List Char) :
    splitWsAux (l.dropWhile isWs) [] = splitWsAux l [] := by
  induction l with
  | nil => rfl
  | cons c cs ih =>
    by_cases hc : isWs c = true
    · simpa [List.dropWhile, hc, splitWsAux] using ih
    · simp [List.dropWhile, hc]

-- Trailing whitespace does not change the token list.
theorem splitWsAux_append_ws (t : List Char) (hws : ∀ c ∈ t, isWs c = true)
    (l : List Char) (acc : List Char) :
    splitWsAux (l ++ t) acc = splitWsAux l acc := by
  induction l generalizing acc with
  | nil =>
    simp only [List.nil_append, splitWsAux_all_ws t hws acc]
    rfl
  | cons c cs ih =>
    by_cases hc : isWs c = true
    · by_cases hacc : acc = []
      · simp [splitWsAux, hc, hacc, ih]
      · simp [splitWsAux, hc, hacc, ih]
    · simp [splitWsAux, hc, ih]

theorem mem_takeWhile_ws {c : Char} {l : List Char} (h : c ∈ l.takeWhile isWs) :
    isWs c = true := by
  induction l with
  | nil => simp [List.takeWhile] at h
  | cons x xs ih =>
    rw [List.takeWhile] at h
    by_cases hx : isWs x = true
    · rw [hx] at h
      rcases List.mem_cons.mp h with rfl | h2
      · exact hx
      · exact ih h2
    · rw [Bool.not_eq_true] at hx
      rw [hx] at h
      simp at h

/-- Stripping surrounding whitespace leaves the token list unchanged
(the key fact connecting the console's routing on the stripped query to
the web form's routing on the raw query). -/
theorem pyTokensL_stripChars (l : List Char) :
    pyTokensL (stripChars l) = pyTokensL l := by
  set m := l.dropWhile isWs with hm
  have hdecomp : m = (m.reverse.dropWhile isWs).reverse ++ (m.reverse.takeWhile isWs).reverse := by
    have h := List.takeWhile_append_dropWhile (p := isWs) (l := m.reverse)
    calc m = m.reverse.reverse := (List.reverse_reverse m).symm
    _ = (m.reverse.takeWhile isWs ++ m.reverse.dropWhile isWs).reverse := by rw [h]
    _ = (m.reverse.dropWhile isWs).reverse ++ (m.reverse.takeWhile isWs).reverse := by
          rw [List.reverse_append]
  have hws : ∀ c ∈ (m.reverse.takeWhile isWs).reverse, isWs c = true := by
    intro c hc
    exact mem_takeWhile_ws (List.mem_reverse.mp hc)
  unfold pyTokensL
  calc splitWsAux (stripChars l) []
      = splitWsAux ((m.reverse.dropWhile isWs).reverse) [] := rfl
    _ = splitWsAux ((m.reverse.dropWhile isWs).reverse ++ (m.reverse.takeWhile isWs).reverse) [] := by
          rw [splitWsAux_append_ws _ hws]
    _ = splitWsAux m [] := by rw [← hdecomp]
    _ = splitWsAux l [] := splitWsAux_dropWhile l

/-- `len(query.split())` is invariant under `query.strip()`. -/
theorem tokenCount_pyStrip (s : String) : tokenCount (pyStrip s) = tokenCount s := by
  unfold tokenCount pyStrip
  rw [pyTokensL_stripChars]

/-! ## Claim theorems -/

/-- C1: For every non-empty input query, the router selects Direct
Lookup exactly when the query splits into at most 3 whitespace-separated
tokens, and selects the 4-step Chain exactly when it splits into more
than 3 tokens; the classification is the pure function `route` of the
query text, and both entry points take the direct-lookup path exactly
when `route` of their routed query is `directLookup`. -/
theorem router_token_threshold (q : String) (h : q ≠ "") :
    ((route q = RouteDecision.directLookup ↔ tokenCount q ≤ 3) ∧
     (route q = RouteDecision.chain ↔ 3 < tokenCount q)) ∧
    (∀ env loads line, pyStrip line ≠ "" → isExitCmd (pyStrip line) = false →
      (((consoleStep env loads line).1.isDirect = true) ↔
        route (pyStrip line) = RouteDecision.directLookup)) ∧
    (∀ env loads text, pyStrip text ≠ "" →
      (((webStep env loads text).1.isDirect = true) ↔
        route text = RouteDecision.directLookup)) := by
  refine ⟨⟨?_, ?_⟩, ?_, ?_⟩
  · unfold route
    by_cases ht : tokenCount q ≤ 3 <;> simp [ht]
  · unfold route
    by_cases ht : tokenCount q ≤ 3 <;> simp [ht] <;> omega
  · intro env loads line hne hex
    by_cases ht : tokenCount (pyStrip line) ≤ 3
    · simp [consoleStep, route, hne, hex, ht, StepResult.isDirect]
    · cases hk : env.kickoff (pyStrip line) with
      | ok r =>
        simp [consoleStep, route, hne, hex, ht, hk, StepResult.isDirect]
      | error e =>
        cases hl : env.llmCall (mkFallbackPrompt (pyStrip line)) with
        | ok r => simp [consoleStep, route, hne, hex, ht, hk, hl, StepResult.isDirect]
        | error e2 => simp [consoleStep, route, hne, hex, ht, hk, hl, StepResult.isDirect]
  · intro env loads text hne
    by_cases ht : tokenCount text ≤ 3
    · simp [webStep, route, hne, ht, WebOutcome.isDirect]
    · cases hk : env.kickoff text with
      | ok r =>
        cases hload : loads r with
        | some j => simp [webStep, route, hne, ht, hk, hload, WebOutcome.isDirect]
        | none => simp [webStep, route, hne, ht, hk, hload, WebOutcome.isDirect]
      | error e =>
        cases hl : env.llmCall (mkFallbackPrompt text) with
        | ok r => simp [webStep, route, hne, ht, hk, hl, WebOutcome.isDirect]
        | error e2 => simp [webStep, route, hne, ht, hk, hl, WebOutcome.isDirect]

/-- Witness for C1 at the short query `"Honda City"`. -/
theorem router_token_threshold_witness :
    (route "Honda City" = RouteDecision.directLookup ↔ tokenCount "Honda City" ≤ 3) ∧
    ((consoleStep envAllFail loadsNone "Honda City").1.isDirect = true ↔
      route (pyStrip "Honda City") = RouteDecision.directLookup) :=
  ⟨(router_token_threshold "Honda City" (by decide)).1.1,
   (router_token_threshold "Honda City" (by decide)).2.1 envAllFail loadsNone "Honda City"
     (by decide) (by decide)⟩

/-- C7: submitted input that is empty or whitespace-only is rejected by
both entry points before any routing: the outcome is the rejection
outcome and the trace of external calls is empty (no router
classification, no lookup, no chain). -/
theorem blank_input_rejected (env : Env) (loads : String → Option Json) (s : String)
    (h : pyStrip s = "") :
    consoleStep env loads s = (StepResult.skipEmpty, []) ∧
    webStep env loads s = (WebOutcome.rejectedEmpty, []) := by
  unfold consoleStep webStep
  simp [h]

/-- Witness for C7 at the whitespace-only input `" \t "`. -/
theorem blank_input_rejected_witness :
    consoleStep envAllFail loadsNone " \t " = (StepResult.skipEmpty, []) ∧
    webStep envAllFail loadsNone " \t " = (WebOutcome.rejectedEmpty, []) :=
  blank_input_rejected envAllFail loadsNone " \t " (by decide)

/-- C9: the API key is resolved from the Streamlit secret store first
and, failing that, from the `.env` file; when neither source yields a
(non-empty) value, startup raises `RuntimeError` and initialization
does not proceed. -/
theorem api_key_resolution (c : ConfigEnv) :
    (∀ k, c.streamlitSecret = some k → geminiApiKeyValue c = some k) ∧
    (c.streamlitSecret = none → geminiApiKeyValue c = c.dotenvKey) ∧
    ((geminiApiKeyValue c = none ∨ geminiApiKeyValue c = some "") →
      startupApiKey c = Except.error "GEMINI_API_KEY missing! Add it in Streamlit Secrets or .env") ∧
    (∀ k, geminiApiKeyValue c = some k → ¬k = "" → startupApiKey c = Except.ok k) := by
  obtain ⟨sec, dk⟩ := c
  refine ⟨?_, ?_, ?_, ?_⟩
  · intro k hk
    cases sec <;> simp_all [geminiApiKeyValue]
  · intro hs
    cases sec <;> simp_all [geminiApiKeyValue]
  · intro hcase
    unfold startupApiKey
    rcases hcase with hnone | hempty
    · rw [hnone]
    · rw [hempty]
      simp
  · intro k hk hkne
    unfold startupApiKey
    rw [hk]
    simp [hkne]

/-- Witness for C9: with both sources empty, startup fails with the
`RuntimeError` message. -/
theorem api_key_resolution_witness :
    startupApiKey ⟨none, none⟩ =
      Except.error "GEMINI_API_KEY missing! Add it in Streamlit Secrets or .env" :=
  (api_key_resolution ⟨none, none⟩).2.2.1 (Or.inl rfl)

/-- C2: for every input name, direct lookup issues exactly one primary
LLM call; only when that call fails does it issue exactly one raw HTTP
fallback call; and when the fallback also fails it returns the string
`"Error calling Gemini: " ++ e` (which starts with
`"Error calling Gemini: "`).  The embedding is a total function into
plain values, so no exception reaches the caller on any path. -/
theorem direct_lookup_call_discipline (env : Env) (name : String) :
    (∀ v, env.llmCall (directPrompt name) = .ok v →
      (direct_car_lookup_text env name).2 = [Ev.llmCall (directPrompt name) llm.max_tokens]) ∧
    (∀ e, env.llmCall (directPrompt name) = .error e →
      (direct_car_lookup_text env name).2 =
        [Ev.llmCall (directPrompt name) llm.max_tokens,
         Ev.httpPost (mkPayload (directPrompt name))]) ∧
    (∀ e e2, env.llmCall (directPrompt name) = .error e →
      env.httpGen (directPrompt name) = .error e2 →
      (direct_car_lookup_text env name).1 = Json.str ("Error calling Gemini: " ++ e2)) := by
  refine ⟨?_, ?_, ?_⟩
  · intro v hv
    simp [direct_car_lookup_text, hv]
  · intro e he
    cases hh : env.httpGen (directPrompt name) with
    | ok d => simp [direct_car_lookup_text, he, hh]
    | error e2 => simp [direct_car_lookup_text, he, hh]
  · intro e e2 he hh
    simp [direct_car_lookup_text, he, hh]

/-- Witness for C2 under a total outage: one primary call, one fallback
call, and the `"Error calling Gemini: "` string. -/
theorem direct_lookup_call_discipline_witness :
    (direct_car_lookup_text envAllFail "Swift").2 =
      [Ev.llmCall (directPrompt "Swift") llm.max_tokens,
       Ev.httpPost (mkPayload (directPrompt "Swift"))] ∧
    (direct_car_lookup_text envAllFail "Swift").1 =
      Json.str ("Error calling Gemini: " ++ "network down") :=
  ⟨(direct_lookup_call_discipline envAllFail "Swift").2.1 "primary down" rfl,
   (direct_lookup_call_discipline envAllFail "Swift").2.2 "primary down" "network down" rfl rfl⟩

/-- C4 counterexample: the direct lookup's primary LLM-client call is
`llm.call(prompt)` with no per-call override, so it runs under the
client's configured `max_tokens = 1024`, not 512: on a run where the
primary call succeeds, the only LLM-client invocation in the trace
carries the token limit 1024, and 1024 ≠ 512. -/
theorem direct_lookup_max_tokens_counterexample :
    (direct_car_lookup_text envPrimaryOk "Swift").2 =
      [Ev.llmCall (directPrompt "Swift") 1024] ∧ (1024 : Nat) ≠ 512 :=
  ⟨rfl, by decide⟩

/-- C4 amended: every LLM-client call of direct lookup runs under the
client's configured `max_tokens`, which is 1024; only the raw HTTP
fallback request sets `maxOutputTokens = 512` in its payload. -/
theorem direct_lookup_token_limits (env : Env) (name : String) :
    (∀ p mt, Ev.llmCall p mt ∈ (direct_car_lookup_text env name).2 → mt = llm.max_tokens) ∧
    llm.max_tokens = 1024 ∧
    (∀ pl, Ev.httpPost pl ∈ (direct_car_lookup_text env name).2 → pl.maxOutputTokens = 512) := by
  refine ⟨?_, rfl, ?_⟩
  · intro p mt hmem
    cases hv : env.llmCall (directPrompt name) with
    | ok r =>
      simp [direct_car_lookup_text, hv] at hmem
      exact hmem.2
    | error e =>
      cases hh : env.httpGen (directPrompt name) with
      | ok d =>
        simp [direct_car_lookup_text, hv, hh] at hmem
        exact hmem.2
      | error e2 =>
        simp [direct_car_lookup_text, hv, hh] at hmem
        exact hmem.2
  · intro pl hmem
    cases hv : env.llmCall (directPrompt name) with
    | ok r =>
      simp [direct_car_lookup_text, hv] at hmem
    | error e =>
      cases hh : env.httpGen (directPrompt name) with
      | ok d =>
        simp [direct_car_lookup_text, hv, hh] at hmem
        rw [hmem, mkPayload]
      | error e2 =>
        simp [direct_car_lookup_text, hv, hh] at hmem
        rw [hmem, mkPayload]

set_option maxRecDepth 4096 in
/-- Witness for the amended C4: the configured limit is 1024 and the
fallback payload built during an outage run carries 512. -/
theorem direct_lookup_token_limits_witness :
    llm.max_tokens = 1024 ∧ (mkPayload (directPrompt "Swift")).maxOutputTokens = 512 :=
  ⟨(direct_lookup_token_limits envAllFail "Swift").2.1,
   (direct_lookup_token_limits envAllFail "Swift").2.2 (mkPayload (directPrompt "Swift"))
     (by decide)⟩

/-- C5: when the primary LLM call succeeds with text `s`, direct lookup
returns exactly `s` — no JSON validation or transformation — and issues
no further call. -/
theorem direct_lookup_primary_verbatim (env : Env) (name : String) (s : String)
    (h : env.llmCall (directPrompt name) = .ok (.str s)) :
    direct_car_lookup_text env name =
      (Json.str s, [Ev.llmCall (directPrompt name) llm.max_tokens]) := by
  simp [direct_car_lookup_text, h]

/-- Witness for C5: the primary result `"lookup-result"` is returned
verbatim. -/
theorem direct_lookup_primary_verbatim_witness :
    direct_car_lookup_text envPrimaryOk "Swift" =
      (Json.str "lookup-result", [Ev.llmCall (directPrompt "Swift") llm.max_tokens]) :=
  direct_lookup_primary_verbatim envPrimaryOk "Swift" "lookup-result" rfl

/-- C6: the raw HTTP fallback extracts
`candidates[0].content.parts[0].text` from the parsed response body;
when the body's shape deviates anywhere along that path it returns the
entire response body serialized as text (`json.dumps(data)`). -/
theorem http_fallback_extraction (env : Env) (name : String) (e : String) (data : Json)
    (hp : env.llmCall (directPrompt name) = .error e)
    (hh : env.httpGen (directPrompt name) = .ok data) :
    (∀ v, candidateText data = some v → (direct_car_lookup_text env name).1 = v) ∧
    (candidateText data = none → (direct_car_lookup_text env name).1 = Json.str data.dumps) := by
  constructor
  · intro v hv
    simp [direct_car_lookup_text, hp, hh, hv]
  · intro hv
    simp [direct_car_lookup_text, hp, hh, hv]

/-- Witness for C6: a well-shaped body yields the extracted text, a
deviant body yields its full serialization. -/
theorem http_fallback_extraction_witness :
    (direct_car_lookup_text envHttpGood "Swift").1 = Json.str "car json" ∧
    (direct_car_lookup_text envHttpBad "Swift").1 = Json.str badGeminiData.dumps :=
  ⟨(http_fallback_extraction envHttpGood "Swift" "down" goodGeminiData rfl rfl).1
      (Json.str "car json") rfl,
   (http_fallback_extraction envHttpBad "Swift" "down" badGeminiData rfl rfl).2 rfl⟩

/-- C3: when the crew kickoff raises, each handler catches it once at
the top level and makes exactly one fallback extraction LLM call with
the prompt embedding the user query; the trace equality shows a single
`kickoffCall` (no step is retried or resumed) followed by the single
fallback `llmCall` and nothing else; the outcome surfaces the
fallback's result or a readable error message, and the console never
leaves its loop on this path. -/
theorem chain_failure_single_fallback (env : Env) (loads : String → Option Json)
    (s : String) (ek ew : String)
    (hne : pyStrip s ≠ "") (hexit : isExitCmd (pyStrip s) = false)
    (hlong : 3 < tokenCount s)
    (hkc : env.kickoff (pyStrip s) = .error ek)
    (hkw : env.kickoff s = .error ew) :
    ((consoleStep env loads s).2 =
      [Ev.kickoffCall (pyStrip s), Ev.llmCall (mkFallbackPrompt (pyStrip s)) llm.max_tokens]) ∧
    ((consoleStep env loads s).1 ≠ StepResult.exitLoop) ∧
    (∀ r, env.llmCall (mkFallbackPrompt (pyStrip s)) = .ok r →
      (consoleStep env loads s).1 = StepResult.chainFallbackOk r) ∧
    (∀ m, env.llmCall (mkFallbackPrompt (pyStrip s)) = .error m →
      (consoleStep env loads s).1 = StepResult.chainFallbackErr m) ∧
    ((webStep env loads s).2 =
      [Ev.kickoffCall s, Ev.llmCall (mkFallbackPrompt s) llm.max_tokens]) ∧
    (∀ r, env.llmCall (mkFallbackPrompt s) = .ok r →
      (webStep env loads s).1 = WebOutcome.chainFallbackOk r) ∧
    (∀ m, env.llmCall (mkFallbackPrompt s) = .error m →
      (webStep env loads s).1 = WebOutcome.chainFallbackErr m) := by
  have hts : ¬ tokenCount (pyStrip s) ≤ 3 := by
    rw [tokenCount_pyStrip]
    omega
  have htw : ¬ tokenCount s ≤ 3 := by omega
  refine ⟨?_, ?_, ?_, ?_, ?_, ?_, ?_⟩
  · cases hl : env.llmCall (mkFallbackPrompt (pyStrip s)) with
    | ok r => simp [consoleStep, hne, hexit, hts, hkc, hl]
    | error m => simp [consoleStep, hne, hexit, hts, hkc, hl]
  · cases hl : env.llmCall (mkFallbackPrompt (pyStrip s)) with
    | ok r => simp [consoleStep, hne, hexit, hts, hkc, hl]
    | error m => simp [consoleStep, hne, hexit, hts, hkc, hl]
  · intro r hr
    simp [consoleStep, hne, hexit, hts, hkc, hr]
  · intro m hm
    simp [consoleStep, hne, hexit, hts, hkc, hm]
  · cases hl : env.llmCall (mkFallbackPrompt s) with
    | ok r => simp [webStep, hne, htw, hkw, hl]
    | error m => simp [webStep, hne, htw, hkw, hl]
  · intro r hr
    simp [webStep, hne, htw, hkw, hr]
  · intro m hm
    simp [webStep, hne, htw, hkw, hm]

set_option maxRecDepth 4096 in
/-- Witness for C3 at a 5-token query under a total outage: one
kickoff, one fallback extraction call, and the fallback error surfaced
in-session. -/
theorem chain_failure_single_fallback_witness :
    (consoleStep envAllFail loadsNone "I want a diesel sedan").2 =
      [Ev.kickoffCall "I want a diesel sedan",
       Ev.llmCall (mkFallbackPrompt "I want a diesel sedan") llm.max_tokens] ∧
    (consoleStep envAllFail loadsNone "I want a diesel sedan").1 =
      StepResult.chainFallbackErr "primary down" := by
  have h := chain_failure_single_fallback envAllFail loadsNone "I want a diesel sedan"
    "crew down" "crew down" (by decide) (by decide) (by decide) rfl rfl
  exact ⟨h.1, h.2.2.2.1 "primary down" rfl⟩

/-- C8: a result string handed to either presentation layer is rendered
as structured output when it parses as JSON, and displayed as exactly
the same raw string when parsing fails; on a short query each entry
point's displayed outcome is this rendering of the lookup result. -/
theorem lookup_render_roundtrip (loads : String → Option Json) (s : String) :
    (loads s = none →
      consoleRenderLookup loads (.str s) = Rendered.raw (.str s) ∧
      webRenderLookup loads (.str s) = Rendered.raw (.str s)) ∧
    (∀ j, loads s = some j →
      consoleRenderLookup loads (.str s) = Rendered.structured j ∧
      webRenderLookup loads (.str s) = Rendered.structured j) ∧
    (∀ env line, pyStrip line ≠ "" → isExitCmd (pyStrip line) = false →
      tokenCount line ≤ 3 →
      (consoleStep env loads line).1 =
        StepResult.direct
          (consoleRenderLookup loads (direct_car_lookup_text env (pyStrip line)).1) ∧
      (webStep env loads line).1 =
        WebOutcome.direct (webRenderLookup loads (direct_car_lookup_text env line).1)) := by
  refine ⟨?_, ?_, ?_⟩
  · intro h
    constructor
    · simp [consoleRenderLookup, h]
    · simp [webRenderLookup, h]
  · intro j h
    constructor
    · simp [consoleRenderLookup, h]
    · simp [webRenderLookup, h]
  · intro env line hne hexit hshort
    have hc : tokenCount (pyStrip line) ≤ 3 := by
      rw [tokenCount_pyStrip]
      exact hshort
    constructor
    · simp [consoleStep, hne, hexit, hc]
    · simp [webStep, hne, hshort]

/-- Witness for C8: a non-parsing string is displayed unchanged; a
parsing string is rendered structured. -/
theorem lookup_render_roundtrip_witness :
    consoleRenderLookup loadsNone (.str "not json") = Rendered.raw (.str "not json") ∧
    consoleRenderLookup loadsEmptyObj (.str "\x7b\x7d") = Rendered.structured (.obj []) :=
  ⟨((lookup_render_roundtrip loadsNone "not json").1 rfl).1,
   ((lookup_render_roundtrip loadsEmptyObj "\x7b\x7d").2.1 (.obj []) rfl).1⟩

/-- The fallback-prompt template determines its embedded query. -/
theorem mkFallbackPrompt_inj {a b : String} (h : mkFallbackPrompt a = mkFallbackPrompt b) :
    a = b := by
  unfold mkFallbackPrompt at h
  have hd := congrArg String.data h
  simp only [String.data_append] at hd
  exact String.ext (List.append_cancel_left (List.append_cancel_right hd))

set_option maxRecDepth 8192 in
/-- C10 counterexample: at the raw input `" I want a cheap family car"`
(leading space, 6 tokens) the console builds the fallback extraction
prompt from the stripped query while the web handler builds it from the
raw text, so the prompts — and the two call traces — are not
character-for-character identical. -/
theorem console_web_prompt_counterexample :
    mkFallbackPrompt (pyStrip " I want a cheap family car") ≠
      mkFallbackPrompt " I want a cheap family car" ∧
    (consoleStep envAllFail loadsNone " I want a cheap family car").2 ≠
      (webStep envAllFail loadsNone " I want a cheap family car").2 := by
  constructor
  · decide
  · decide

/-- C10 amended: both entry points classify with the identical
threshold `len(query.split()) <= 3` and agree on every query (token
count is invariant under the console's stripping); short queries go to
the shared `direct_car_lookup_text` (console on the stripped query, web
on the raw text) and long ones to the shared `crew.kickoff`; on chain
failure each makes the single fallback `llm.call` built from the
identical prompt template, the console embedding the stripped query and
the web the raw query, so the two prompts are character-for-character
identical exactly when the query has no surrounding whitespace. -/
theorem console_web_policy_alignment (env : Env) (loads : String → Option Json) (s : String)
    (hne : pyStrip s ≠ "") (hexit : isExitCmd (pyStrip s) = false) :
    tokenCount (pyStrip s) = tokenCount s ∧
    (tokenCount s ≤ 3 →
      (consoleStep env loads s).2 = (direct_car_lookup_text env (pyStrip s)).2 ∧
      (webStep env loads s).2 = (direct_car_lookup_text env s).2) ∧
    (∀ ek ew, 3 < tokenCount s → env.kickoff (pyStrip s) = .error ek →
      env.kickoff s = .error ew →
      (consoleStep env loads s).2 =
        [Ev.kickoffCall (pyStrip s),
         Ev.llmCall (mkFallbackPrompt (pyStrip s)) llm.max_tokens] ∧
      (webStep env loads s).2 =
        [Ev.kickoffCall s, Ev.llmCall (mkFallbackPrompt s) llm.max_tokens]) ∧
    (mkFallbackPrompt (pyStrip s) = mkFallbackPrompt s ↔ pyStrip s = s) := by
  refine ⟨tokenCount_pyStrip s, ?_, ?_, ?_⟩
  · intro hshort
    have hcs : tokenCount (pyStrip s) ≤ 3 := by
      rw [tokenCount_pyStrip]
      exact hshort
    constructor
    · simp [consoleStep, hne, hexit, hcs]
    · simp [webStep, hne, hshort]
  · intro ek ew hlong hkc hkw
    have hts : ¬ tokenCount (pyStrip s) ≤ 3 := by
      rw [tokenCount_pyStrip]
      omega
    have htw : ¬ tokenCount s ≤ 3 := by omega
    constructor
    · cases hl : env.llmCall (mkFallbackPrompt (pyStrip s)) with
      | ok r => simp [consoleStep, hne, hexit, hts, hkc, hl]
      | error m => simp [consoleStep, hne, hexit, hts, hkc, hl]
    · cases hl : env.llmCall (mkFallbackPrompt s) with
      | ok r => simp [webStep, hne, htw, hkw, hl]
      | error m => simp [webStep, hne, htw, hkw, hl]
  · constructor
    · exact fun h => mkFallbackPrompt_inj h
    · intro h
      rw [h]

set_option maxRecDepth 8192 in
/-- Witness for the amended C10 at a 7-token query without surrounding
whitespace. -/
theorem console_web_policy_alignment_witness :
    tokenCount (pyStrip "I want a petrol SUV under 12 lakh") =
      tokenCount "I want a petrol SUV under 12 lakh" ∧
    (mkFallbackPrompt (pyStrip "I want a petrol SUV under 12 lakh") =
        mkFallbackPrompt "I want a petrol SUV under 12 lakh" ↔
      pyStrip "I want a petrol SUV under 12 lakh" = "I want a petrol SUV under 12 lakh") :=
  ⟨(console_web_policy_alignment envAllFail loadsNone "I want a petrol SUV under 12 lakh"
      (by decide) (by decide)).1,
   (console_web_policy_alignment envAllFail loadsNone "I want a petrol SUV under 12 lakh"
      (by decide) (by decide)).2.2.2⟩

end CarRec
